import Mathlib

/-!
Verification development for the FLV container parser (flv-parser.c).

The C source is shallowly embedded: the byte stream and in-memory tag
buffers are lists of byte values (Nat, each byte below 256), pointer plus
length cursors become lists of the remaining bytes, and every C function
that can fire an assert or call exit is modelled with an explicit outcome
value (Option none, or a dedicated outcome constructor) standing for
process termination.  IEEE-754 doubles are carried as their raw 64-bit
bit patterns (the C code only reinterprets bytes via a union and never
computes with the float values during parsing).
-/

namespace Flv

/-- Value tags of enum scriptdata_value_types, in declaration order. -/
def SCRIPTDATA_NUMBER : Nat := 0

/-- Boolean value tag. -/
def SCRIPTDATA_BOOLEAN : Nat := 1

/-- String value tag. -/
def SCRIPTDATA_STRING : Nat := 2

/-- Object value tag. -/
def SCRIPTDATA_OBJECT : Nat := 3

/-- ECMA array value tag. -/
def SCRIPTDATA_ECMA_ARRAY : Nat := 8

/-- Object end marker tag (the list terminator tag). -/
def SCRIPTDATA_OBJECT_END_MARKER : Nat := 9

/-- Strict array value tag. -/
def SCRIPTDATA_STRICT_ARRAY : Nat := 10

/-- Date value tag. -/
def SCRIPTDATA_DATE : Nat := 11

/-- Tag type byte of an audio tag (TAGTYPE_AUDIODATA). -/
def TAGTYPE_AUDIODATA : Nat := 8

/-- Tag type byte of a video tag (TAGTYPE_VIDEODATA). -/
def TAGTYPE_VIDEODATA : Nat := 9

/-- Tag type byte of a scriptdata tag (TAGTYPE_SCRIPTDATAOBJECT). -/
def TAGTYPE_SCRIPTDATAOBJECT : Nat := 18

/-- Codec id of AVC video (FLV_CODEC_ID_AVC). -/
def FLV_CODEC_ID_AVC : Nat := 7

/-- Subtraction as computed on size_t operands (64-bit wrap-around). -/
def sub_size_t (a b : Nat) : Nat :=
  (a + 18446744073709551616 - b) % 18446744073709551616

/-- Subtraction on size_t operands truncated back to uint32_t, as in the
expression that passes data_size - count down to read_avc_video_tag. -/
def sub_u32 (a b : Nat) : Nat :=
  ((a + 18446744073709551616 - b) % 18446744073709551616) % 4294967296

/-- Model of flv_get_bits: mask is built in int arithmetic and truncated to
uint8_t by the cast in the C source, hence the reduction mod 256. -/
def flv_get_bits (value start_bit count : Nat) : Nat :=
  let mask := (((1 <<< count) - 1) <<< start_bit) % 256
  (mask &&& value) >>> start_bit

/-- Model of fread_1 on a byte stream.  fread of one byte either consumes
the head of the stream, or reads nothing at end of stream; in the latter
case the destination byte keeps its previous contents, which the model
receives as the old argument.  Result: bytes reported, destination byte,
remaining stream. -/
def fread_1 (old : Nat) (s : List Nat) : Nat × Nat × List Nat :=
  match s with
  | [] => (0, old, [])
  | b :: r => (1, b, r)

/-- Model of fread_3.  The local buffer bytes[3] is zero-initialised, a
single 3-byte element is read, and the 24-bit big-endian assembly into
the destination is performed unconditionally, so a short read yields a
value assembled from the zero-filled (or, on a partial read, partially
filled) buffer while reporting 0 bytes.  Partial fills follow the
prefix-copying behaviour of common C libraries; no theorem below depends
on a partially filled buffer.  A short read consumes the whole stream. -/
def fread_3 (s : List Nat) : Nat × Nat × List Nat :=
  match s with
  | b0 :: b1 :: b2 :: r => (3, (b0 <<< 16) ||| (b1 <<< 8) ||| b2, r)
  | [] => (0, 0, [])
  | [b0] => (0, b0 <<< 16, [])
  | [b0, b1] => (0, (b0 <<< 16) ||| (b1 <<< 8), [])

/-- Model of fread_4, with the same conventions as fread_3. -/
def fread_4 (s : List Nat) : Nat × Nat × List Nat :=
  match s with
  | b0 :: b1 :: b2 :: b3 :: r =>
      (4, (b0 <<< 24) ||| (b1 <<< 16) ||| (b2 <<< 8) ||| b3, r)
  | [] => (0, 0, [])
  | [b0] => (0, b0 <<< 24, [])
  | [b0, b1] => (0, (b0 <<< 24) ||| (b1 <<< 16), [])
  | [b0, b1, b2] => (0, (b0 <<< 24) ||| (b1 <<< 16) ||| (b2 <<< 8), [])

/-- Model of fread(ptr, 1, n, f): consumes up to n bytes and returns them;
the reported count is the length of the returned list. -/
def fread_buf (n : Nat) (s : List Nat) : List Nat × List Nat :=
  (s.take n, s.drop n)

/-- Model of hex2double: the 8 bytes are assembled big-endian into the
64-bit pattern bin; the union reinterpretation to double is kept as that
raw bit pattern. -/
def hex2double (hex : List Nat) : Nat :=
  let bin_h := (hex[0]! <<< 24) ||| (hex[1]! <<< 16) ||| (hex[2]! <<< 8) ||| hex[3]!
  let bin_l := (hex[4]! <<< 24) ||| (hex[5]! <<< 16) ||| (hex[6]! <<< 8) ||| hex[7]!
  (bin_h <<< 32) ||| bin_l

/-- Model of parse_scriptdata_number over the cursor (data, len), here the
list of remaining bytes.  Returns none when the assert on the type tag
fires (process abort); otherwise some (value bit pattern, new cursor).
Failed length checks return 0 and leave the cursor unchanged, exactly as
the early returns in C leave *data and *len untouched. -/
def parse_scriptdata_number (data : List Nat) : Option (Nat × List Nat) :=
  match data with
  | [] => some (0, [])
  | t :: d =>
      if t ≠ SCRIPTDATA_NUMBER then none
      else if d.length < 8 then some (0, t :: d)
      else some (hex2double (d.take 8), d.drop 8)

/-- Model of parse_scriptdata_boolean, with the same conventions as
parse_scriptdata_number. -/
def parse_scriptdata_boolean (data : List Nat) : Option (Nat × List Nat) :=
  match data with
  | [] => some (0, [])
  | t :: d =>
      if t ≠ SCRIPTDATA_BOOLEAN then none
      else
        match d with
        | [] => some (0, t :: d)
        | b :: d2 => some (b, d2)

/-- Model of parse_scriptdata_date: reads the type tag, the 8-byte double
(returned as its bit pattern) and a 2-byte local time offset that is
decoded into offset_min but deliberately unused; every failed length
check returns 0 with the cursor unchanged. -/
def parse_scriptdata_date (data : List Nat) : Option (Nat × List Nat) :=
  match data with
  | [] => some (0, [])
  | t :: d =>
      if t ≠ SCRIPTDATA_DATE then none
      else if d.length < 8 then some (0, t :: d)
      else
        let dt := hex2double (d.take 8)
        let d8 := d.drop 8
        if d8.length < 2 then some (0, t :: d)
        else some (dt, d8.drop 2)

/-- Model of parse_scriptdata_string_without_type: a 16-bit big-endian
length followed by that many raw bytes.  Failure (the C NULL return)
leaves the cursor unchanged; the in-place pascal-to-c rewriting in the
source only mutates bytes at or before the string region, never bytes
the cursor can still reach, so the remaining-byte list is unaffected. -/
def parse_scriptdata_string_without_type (data : List Nat) :
    Option (List Nat × List Nat) :=
  match data with
  | b0 :: b1 :: d =>
      let len := (b0 <<< 8) + b1
      if d.length < len then none
      else some (d.take len, d.drop len)
  | _ => none

/-- First character of the NUL-terminated C string built from the raw
string bytes: a zero-length string has its terminator at index 0, so the
C expression property_name[0] reads 0 for it. -/
def cfirst (s : List Nat) : Nat :=
  match s with
  | [] => 0
  | b :: _ => b

/-- Model of parse_scriptdata_string: checks the length, asserts the type
tag (none on abort), consumes the tag byte, then delegates.  Note the C
code commits *data and *len before delegating, so the tag byte stays
consumed even when the delegate returns NULL. -/
def parse_scriptdata_string (data : List Nat) :
    Option (Option (List Nat) × List Nat) :=
  match data with
  | [] => some (none, [])
  | t :: d =>
      if t ≠ SCRIPTDATA_STRING then none
      else
        match parse_scriptdata_string_without_type d with
        | none => some (none, d)
        | some (s, rest) => some (some s, rest)

/-- Model of parse_scriptdata_ECMA_array_raw: asserts the type tag, reads
the 32-bit declared item count and returns the cursor into the variable
area.  The inner none models the C NULL returns on short input. -/
def parse_scriptdata_ECMA_array_raw (data : List Nat) :
    Option (Option (Nat × List Nat)) :=
  match data with
  | [] => some none
  | t :: d =>
      if t ≠ SCRIPTDATA_ECMA_ARRAY then none
      else
        match d with
        | c0 :: c1 :: c2 :: c3 :: d2 =>
            some (some ((c0 <<< 24) + (c1 <<< 16) + (c2 <<< 8) + c3, d2))
        | _ => some none

/-- Item loop of parse_scriptdata_strict_array: the C for loop calls
parse_scriptdata_number once per declared item, ignoring the returned
value; an assert abort inside any call aborts the whole parse. -/
def parse_strict_array_items : Nat → List Nat → Option (List Nat)
  | 0, d => some d
  | n + 1, d =>
      match parse_scriptdata_number d with
      | none => none
      | some (_, d2) => parse_strict_array_items n d2

/-- Model of parse_scriptdata_strict_array: type tag, 32-bit big-endian
count, then exactly count parse_scriptdata_number calls.  Returns the
declared count and the cursor after the items, or none on an assert
abort. -/
def parse_scriptdata_strict_array (data : List Nat) : Option (Nat × List Nat) :=
  match data with
  | [] => some (0, [])
  | t :: d =>
      if t ≠ SCRIPTDATA_STRICT_ARRAY then none
      else
        match d with
        | c0 :: c1 :: c2 :: c3 :: d2 =>
            (match parse_strict_array_items
                ((c0 <<< 24) + (c1 <<< 16) + (c2 <<< 8) + c3) d2 with
            | none => none
            | some d3 =>
                some ((c0 <<< 24) + (c1 <<< 16) + (c2 <<< 8) + c3, d3))
        | _ => some (0, t :: d)

/-- Decoded property value as observed through the print statements of
print_scriptdata_object; doubles are carried as bit patterns. -/
inductive PropVal where
  | num (bits : Nat)
  | boolVal (b : Nat)
  | strVal (s : Option (List Nat))
  | obj (entries : List (List Nat × PropVal))
  | strictArr (n : Nat)
  | dateVal (bits : Nat)

/-- Reason the property loop of print_scriptdata_object stopped. -/
inductive ObjExit where
  /-- Terminator branch: empty C-string name followed by tag 9; the marker
  byte was consumed. -/
  | terminator
  /-- While condition failed: no bytes left. -/
  | exhausted
  /-- Name parse returned NULL. -/
  | nameFail
  /-- No byte left for the property type after the name. -/
  | shortAfterName
  /-- Default switch branch: unknown property type, loop returns with the
  cursor still at the type byte. -/
  | unknownProp (t : Nat)
  /-- An assert fired inside a nested parse (process abort). -/
  | abortAssert
  /-- Fuel ran out (model artefact, unreachable for fuel above the cursor
  length). -/
  | fuelOut
deriving DecidableEq

/-- Result of the property loop: properties decoded in order, the reason
the loop stopped, and the cursor left behind. -/
structure ObjRes where
  entries : List (List Nat × PropVal)
  exit : ObjExit
  rest : List Nat

/-- Model of print_scriptdata_object.  The while loop repeatedly parses a
property name and dispatches on the following type byte; the terminator
check compares the first character of the name C string with NUL and the
type byte with SCRIPTDATA_OBJECT_END_MARKER, and only both together make
it consume the marker byte and return.  Fuel bounds the recursion; every
recursive call follows the consumption of at least one byte, so fuel
exceeding the cursor length never runs out. -/
def print_scriptdata_object : Nat → List Nat → ObjRes
  | 0, d => ⟨[], .fuelOut, d⟩
  | fuel + 1, d =>
      if d.isEmpty then ⟨[], .exhausted, d⟩
      else
        match parse_scriptdata_string_without_type d with
        | none => ⟨[], .nameFail, d⟩
        | some (name, d1) =>
            if d1.isEmpty then ⟨[], .shortAfterName, d1⟩
            else
              let ptype := d1.head!
              if cfirst name = 0 ∧ ptype = SCRIPTDATA_OBJECT_END_MARKER then
                ⟨[], .terminator, d1.tail⟩
              else
                match ptype with
                | 0 =>
                    match parse_scriptdata_number d1 with
                    | none => ⟨[], .abortAssert, d1⟩
                    | some (v, d2) =>
                        let r := print_scriptdata_object fuel d2
                        ⟨(name, .num v) :: r.entries, r.exit, r.rest⟩
                | 1 =>
                    match parse_scriptdata_boolean d1 with
                    | none => ⟨[], .abortAssert, d1⟩
                    | some (v, d2) =>
                        let r := print_scriptdata_object fuel d2
                        ⟨(name, .boolVal v) :: r.entries, r.exit, r.rest⟩
                | 2 =>
                    match parse_scriptdata_string d1 with
                    | none => ⟨[], .abortAssert, d1⟩
                    | some (v, d2) =>
                        let r := print_scriptdata_object fuel d2
                        ⟨(name, .strVal v) :: r.entries, r.exit, r.rest⟩
                | 3 =>
                    let r1 := print_scriptdata_object fuel d1.tail
                    if r1.exit = .abortAssert ∨ r1.exit = .fuelOut then
                      ⟨[], r1.exit, r1.rest⟩
                    else
                      let r2 := print_scriptdata_object fuel r1.rest
                      ⟨(name, .obj r1.entries) :: r2.entries, r2.exit, r2.rest⟩
                | 10 =>
                    match parse_scriptdata_strict_array d1 with
                    | none => ⟨[], .abortAssert, d1⟩
                    | some (n, d2) =>
                        let r := print_scriptdata_object fuel d2
                        ⟨(name, .strictArr n) :: r.entries, r.exit, r.rest⟩
                | 11 =>
                    match parse_scriptdata_date d1 with
                    | none => ⟨[], .abortAssert, d1⟩
                    | some (v, d2) =>
                        let r := print_scriptdata_object fuel d2
                        ⟨(name, .dateVal v) :: r.entries, r.exit, r.rest⟩
                | t => ⟨[], .unknownProp t, d1⟩

/-- Outcome of read_scriptdata_tag on its in-memory payload buffer. -/
inductive SDOutcome where
  /-- data_size was 0: the function returns NULL before reading. -/
  | nilTag
  /-- Name parse returned NULL: the tag is returned with no further
  checks. -/
  | earlyName
  /-- ECMA array header parse returned NULL: the tag is returned with no
  further checks. -/
  | earlyValue
  /-- The value area parsed and the final assert value_length == 0
  passed. -/
  | done
  /-- The final assert value_length == 0 failed: process abort. -/
  | abortAssert
  /-- An assert fired inside one of the nested parses: process abort. -/
  | abortNested
  /-- Fuel ran out in the property loop (model artefact, unreachable). -/
  | fuelOut
deriving DecidableEq

/-- Model of the parsing part of read_scriptdata_tag: the tag payload has
already been read into a buffer of data_size bytes (the payload list).
value_length is exactly the number of buffer bytes left after the ECMA
array header, and the final assert demands that the property loop
consumed all of them. -/
def read_scriptdata_tag (data_size : Nat) (payload : List Nat) : SDOutcome :=
  if data_size = 0 then .nilTag
  else
    match parse_scriptdata_string payload with
    | none => .abortNested
    | some (none, _) => .earlyName
    | some (some _, d1) =>
        match parse_scriptdata_ECMA_array_raw d1 with
        | none => .abortNested
        | some none => .earlyValue
        | some (some (_, value_data)) =>
            let r := print_scriptdata_object (value_data.length + 1) value_data
            if r.exit = .abortAssert then .abortNested
            else if r.exit = .fuelOut then .fuelOut
            else if r.rest.length = 0 then .done
            else .abortAssert

/-- Decoded audio tag fields; aac_packet_type keeps the 255 dummy written
by the C code when the sound format is not AAC. -/
structure audio_tag_t where
  sound_format : Nat
  sound_rate : Nat
  sound_size : Nat
  sound_type : Nat
  aac_packet_type : Nat
  data : List Nat
deriving DecidableEq

/-- Model of read_audio_tag over the stream: extracts the four bit fields
of the first byte, reads the AAC packet type byte exactly when the sound
format is 10, then reads the remaining declared bytes.  The Bool result
records whether the AudioSpecificConfig branch was taken, that is the
condition aac_packet_type == 0 and count > 0 guarding the configuration
printout.  Returns none when data_size is 0 (the C NULL return). -/
def read_audio_tag (data_size : Nat) (s : List Nat) :
    Option (audio_tag_t × Bool × List Nat) :=
  if data_size = 0 then none
  else
    let r1 := fread_1 0 s
    let c1 := r1.1
    let byte := r1.2.1
    let s1 := r1.2.2
    let fmt := flv_get_bits byte 4 4
    let rate := flv_get_bits byte 2 2
    let ssize := flv_get_bits byte 1 1
    let stype := flv_get_bits byte 0 1
    let r2 := if fmt = 10 then fread_1 byte s1 else (0, 255, s1)
    let count := c1 + r2.1
    let aac := r2.2.1
    let s2 := r2.2.2
    let n := sub_size_t data_size count
    let b := fread_buf n s2
    let cfg := aac == 0 && !b.1.isEmpty
    some (⟨fmt, rate, ssize, stype, aac, b.1⟩, cfg, b.2)

/-- Decoded AVC video packet fields. -/
structure avc_video_tag_t where
  avc_packet_type : Nat
  composition_time : Nat
  nalu_len : Nat
  data : List Nat
deriving DecidableEq

/-- Model of read_avc_video_tag: reads the packet type byte; for packet
type 1 reads the 3-byte composition time (assembled unsigned by fread_3,
with no sign extension) and later the 4-byte first NALU length, otherwise
both fields are set to 0 and no bytes are read for them.  The assert on
frame_type != 5 sits between the composition time read and the NALU
length read; none models its abort.  The destination of the packet type
fread is uninitialised in C, so no theorem uses an empty stream here. -/
def read_avc_video_tag (frame_type data_size : Nat) (s : List Nat) :
    Option (avc_video_tag_t × List Nat) :=
  let r1 := fread_1 0 s
  let pt := r1.2.1
  let r2 := if pt = 1 then fread_3 r1.2.2 else (0, 0, r1.2.2)
  let ct := r2.2.1
  let count := r1.1 + r2.1
  if frame_type = 5 then none
  else
    let r3 := if pt = 1 then fread_4 r2.2.2 else (0, 0, r2.2.2)
    let nl := r3.2.1
    let count2 := count + r3.1
    let n := sub_size_t data_size count2
    let b := fread_buf n r3.2.2
    some (⟨pt, ct, nl, b.1⟩, b.2)

/-- Outcome of read_video_tag. -/
inductive VideoRes where
  /-- data_size was 0: NULL return. -/
  | nil
  /-- Non-AVC codec: raw payload bytes. -/
  | raw (frame_type codec_id : Nat) (data rest : List Nat)
  /-- AVC codec: decoded AVC packet. -/
  | avc (frame_type codec_id : Nat) (t : avc_video_tag_t) (rest : List Nat)
  /-- The frame_type assert fired inside read_avc_video_tag. -/
  | abortAssert
deriving DecidableEq

/-- Model of read_video_tag: extracts frame type and codec id from the
first byte and either delegates to read_avc_video_tag (codec id 7) or
reads the remaining declared bytes raw.  There is no frame type check on
the raw path. -/
def read_video_tag (data_size : Nat) (s : List Nat) : VideoRes :=
  if data_size = 0 then .nil
  else
    let r1 := fread_1 0 s
    let ft := flv_get_bits r1.2.1 4 4
    let ci := flv_get_bits r1.2.1 0 4
    if ci = FLV_CODEC_ID_AVC then
      match read_avc_video_tag ft (sub_u32 data_size r1.1) r1.2.2 with
      | none => .abortAssert
      | some (t, rest) => .avc ft ci t rest
    else
      let n := sub_size_t data_size r1.1
      let b := fread_buf n r1.2.2
      .raw ft ci b.1 b.2

/-- Header fields of one FLV tag exactly as flv_read_tag stores them:
the 24-bit timestamp and the 8-bit extension byte live in separate
fields. -/
structure flv_tag_t where
  tag_type : Nat
  data_size : Nat
  timestamp : Nat
  timestamp_ext : Nat
  stream_id : Nat
deriving DecidableEq

/-- Payload attached to a decoded tag. -/
inductive Payload where
  /-- The audio reader returned NULL (data_size 0). -/
  | audioNil
  | audio (t : audio_tag_t) (cfg : Bool)
  | video (v : VideoRes)
  | script (o : SDOutcome)
deriving DecidableEq

/-- Outcome of one flv_read_tag call. -/
inductive TagOutcome where
  /-- feof fired after the tag type read: no more tags. -/
  | noMore
  /-- A tag was produced. -/
  | ok (t : flv_tag_t) (p : Payload) (rest : List Nat)
  /-- die() was called: the process terminates with exit(-1). -/
  | processExit
  /-- An assert fired inside a payload decoder: the process aborts. -/
  | abortAssert
deriving DecidableEq

/-- Model of flv_read_tag: consumes the 4-byte previous tag size, reads
the 11-byte tag header (type, 24-bit payload size, 24-bit timestamp,
8-bit timestamp extension, 24-bit stream id), then dispatches on the tag
type; any other type byte reaches the default branch, which calls die()
and so terminates the process.  The byte counts returned by the fread
helpers are assigned but never checked.  For a scriptdata tag the
payload buffer is filled from the stream; bytes past the end of the
stream are uninitialised in C and modelled as 0, and no theorem relies
on them.  The timestamp extension byte is read by fread_1 straight into
a field of the freshly malloc'd struct, so if the stream ends before
that byte the field keeps indeterminate malloc contents: the model
receives those contents as the uninit_ext argument and leaves them
unconstrained.  The tag_type destination is likewise uninitialised, but
a failed read there is always followed by the feof return, so its value
is never observed and 0 is passed for it. -/
def flv_read_tag (uninit_ext : Nat) (s : List Nat) : TagOutcome :=
  let r0 := fread_4 s
  let r1 := fread_1 0 r0.2.2
  if r1.1 = 0 then .noMore
  else
    let tt := r1.2.1
    let r2 := fread_3 r1.2.2
    let ds := r2.2.1
    let r3 := fread_3 r2.2.2
    let r4 := fread_1 uninit_ext r3.2.2
    let r5 := fread_3 r4.2.2
    let tag : flv_tag_t := ⟨tt, ds, r3.2.1, r4.2.1, r5.2.1⟩
    let s5 := r5.2.2
    if tt = TAGTYPE_AUDIODATA then
      match read_audio_tag ds s5 with
      | none => .ok tag .audioNil s5
      | some (a, cfg, rest) => .ok tag (.audio a cfg) rest
    else if tt = TAGTYPE_VIDEODATA then
      match read_video_tag ds s5 with
      | .nil => .ok tag (.video .nil) s5
      | .raw ft ci d r => .ok tag (.video (.raw ft ci d r)) r
      | .avc ft ci t r => .ok tag (.video (.avc ft ci t r)) r
      | .abortAssert => .abortAssert
    else if tt = TAGTYPE_SCRIPTDATAOBJECT then
      let buf := s5.take ds ++ List.replicate (ds - min ds s5.length) 0
      let rest := s5.drop ds
      match read_scriptdata_tag ds buf with
      | .abortAssert => .abortAssert
      | .abortNested => .abortAssert
      | o => .ok tag (.script o) rest
    else .processExit

/-- Modelled from the specification wording of the AVC composition time
claim: interpretation of a 24-bit field as a sign-extended signed value.
The C source performs no such extension; this definition exists only to
state the comparison. -/
def sign_extend_24 (n : Nat) : Int :=
  if n < 8388608 then (n : Int) else (n : Int) - 16777216

/-- Encoding predicate: items is the concatenation of n strict-array
Number items, each a SCRIPTDATA_NUMBER type byte followed by 8 payload
bytes. -/
inductive NumberItemsEnc : Nat → List Nat → Prop where
  | nil : NumberItemsEnc 0 []
  | cons (b : List Nat) (hb : b.length = 8) (n : Nat) (tail : List Nat)
      (h : NumberItemsEnc n tail) :
      NumberItemsEnc (n + 1) (SCRIPTDATA_NUMBER :: b ++ tail)

end Flv

namespace Flv

set_option maxRecDepth 8192 in
/-- Bit-field extraction on a byte agrees with the arithmetic reading of
the four audio header fields and the two video header fields. -/
theorem flv_get_bits_byte_spec :
    ∀ b : Nat, b < 256 →
      flv_get_bits b 4 4 = b / 16 % 16 ∧
      flv_get_bits b 2 2 = b / 4 % 4 ∧
      flv_get_bits b 1 1 = b / 2 % 2 ∧
      flv_get_bits b 0 1 = b % 2 ∧
      flv_get_bits b 0 4 = b % 16 := by decide

/-- One step of the property loop on the terminator encoding: a 2-byte
zero length (the empty name) followed by the marker byte 9 consumes all
three bytes and stops the loop. -/
theorem obj_loop_terminator_step (fuel : Nat) (rest : List Nat) :
    print_scriptdata_object (fuel + 1) (0 :: 0 :: 9 :: rest) =
      ⟨[], .terminator, rest⟩ := rfl

/-- The strict array item loop consumes exactly the n encoded Number
items, 9 bytes each. -/
theorem strict_items_spec (n : Nat) (items rest : List Nat)
    (h : NumberItemsEnc n items) :
    parse_strict_array_items n (items ++ rest) = some rest ∧
      items.length = 9 * n := by
  induction h with
  | nil => exact ⟨rfl, rfl⟩
  | cons b hb m tail htail ih =>
      obtain ⟨ih1, ih2⟩ := ih
      constructor
      · show parse_strict_array_items (m + 1)
          ((SCRIPTDATA_NUMBER :: b ++ tail) ++ rest) = some rest
        have hshape : (SCRIPTDATA_NUMBER :: b ++ tail) ++ rest =
            SCRIPTDATA_NUMBER :: (b ++ (tail ++ rest)) := by
          simp [List.cons_append, List.append_assoc]
        rw [hshape]
        have hnum : parse_scriptdata_number
            (SCRIPTDATA_NUMBER :: (b ++ (tail ++ rest))) =
            some (hex2double ((b ++ (tail ++ rest)).take 8), tail ++ rest) := by
          simp only [parse_scriptdata_number, SCRIPTDATA_NUMBER]
          rw [if_neg (by simp), if_neg (by simp [hb])]
          rw [← hb, List.drop_left]
        simp only [parse_strict_array_items, hnum]
        exact ih1
      · simp [hb, ih2]; omega

/-- C1: the object/ECMA-array property loop stops through its terminator
branch exactly when the decoded property name is the empty C string and
the following type tag is the object end marker 9; taking that branch
consumes the marker byte and returns, while an empty name followed by any
other tag (here the Number tag, with its 8 payload bytes present) is
decoded as an ordinary property and the loop continues.  Part three is
the exact characterisation: whenever a name parses and a type byte
follows, the loop returns the no-properties terminator result if and only
if both conditions hold. -/
theorem object_end_requires_empty_name_and_marker :
    (∀ (fuel : Nat) (rest : List Nat),
        print_scriptdata_object (fuel + 1) (0 :: 0 :: 9 :: rest) =
          ⟨[], .terminator, rest⟩) ∧
    (∀ (fuel x0 x1 x2 x3 x4 x5 x6 x7 : Nat) (rest : List Nat),
        print_scriptdata_object (fuel + 1)
            (0 :: 0 :: 0 :: x0 :: x1 :: x2 :: x3 :: x4 :: x5 :: x6 :: x7 :: rest) =
          ⟨([], .num (hex2double [x0, x1, x2, x3, x4, x5, x6, x7])) ::
              (print_scriptdata_object fuel rest).entries,
            (print_scriptdata_object fuel rest).exit,
            (print_scriptdata_object fuel rest).rest⟩) ∧
    (∀ (fuel : Nat) (d nm : List Nat) (pt : Nat) (d2 : List Nat),
        parse_scriptdata_string_without_type d = some (nm, pt :: d2) →
        (print_scriptdata_object (fuel + 1) d = ⟨[], .terminator, d2⟩ ↔
          cfirst nm = 0 ∧ pt = 9)) := by
  refine ⟨fun fuel rest => obj_loop_terminator_step fuel rest,
    fun fuel x0 x1 x2 x3 x4 x5 x6 x7 rest => rfl, ?_⟩
  intro fuel d nm pt d2 h1
  cases d with
  | nil => simp [parse_scriptdata_string_without_type] at h1
  | cons a d =>
      simp only [print_scriptdata_object, List.isEmpty_cons, Bool.false_eq_true,
        if_false, h1, List.head!_cons, List.tail_cons,
        SCRIPTDATA_OBJECT_END_MARKER]
      by_cases hc : cfirst nm = 0 ∧ pt = 9
      · simp [hc]
      · rw [if_neg hc]
        simp only [hc, iff_false]
        intro hEq
        split at hEq
        all_goals first
          | (split at hEq <;> simp_all)
          | simp_all

/-- Witness for the C1 theorem at concrete inputs: terminator on
[0,0,9,7], Number property on an empty name, and the characterisation
instantiated at the bare terminator body [0,0,9]. -/
theorem object_end_requires_empty_name_and_marker_witness :
    print_scriptdata_object 1 [0, 0, 9, 7] = ⟨[], .terminator, [7]⟩ ∧
    print_scriptdata_object 1 [0, 0, 0, 1, 2, 3, 4, 5, 6, 7, 8] =
      ⟨([], .num (hex2double [1, 2, 3, 4, 5, 6, 7, 8])) ::
          (print_scriptdata_object 0 []).entries,
        (print_scriptdata_object 0 []).exit,
        (print_scriptdata_object 0 []).rest⟩ ∧
    (print_scriptdata_object 1 [0, 0, 9] = ⟨[], .terminator, []⟩ ↔
      cfirst [] = 0 ∧ 9 = 9) :=
  ⟨object_end_requires_empty_name_and_marker.1 0 [7],
   object_end_requires_empty_name_and_marker.2.1 0 1 2 3 4 5 6 7 8 [],
   object_end_requires_empty_name_and_marker.2.2 0 [0, 0, 9] [] 9 [] rfl⟩

/-- C10: each of the three primitive scriptdata decoders, called on a
buffer whose remaining length is too small for the field about to be
read, returns 0 and leaves the cursor (the data pointer together with
the remaining length) unchanged: the empty buffer, a Number or Date type
tag followed by fewer than 8 bytes of double, a Boolean tag followed by
nothing, and a Date whose double parsed but whose 2-byte offset is
missing. -/
theorem primitive_decoders_unchanged_on_short_buffer :
    (parse_scriptdata_number [] = some (0, []) ∧
     ∀ d : List Nat, d.length < 8 →
       parse_scriptdata_number (SCRIPTDATA_NUMBER :: d) =
         some (0, SCRIPTDATA_NUMBER :: d)) ∧
    (parse_scriptdata_boolean [] = some (0, []) ∧
     parse_scriptdata_boolean [SCRIPTDATA_BOOLEAN] =
       some (0, [SCRIPTDATA_BOOLEAN])) ∧
    (parse_scriptdata_date [] = some (0, []) ∧
     (∀ d : List Nat, d.length < 8 →
       parse_scriptdata_date (SCRIPTDATA_DATE :: d) =
         some (0, SCRIPTDATA_DATE :: d)) ∧
     ∀ d8 d2 : List Nat, d8.length = 8 → d2.length < 2 →
       parse_scriptdata_date (SCRIPTDATA_DATE :: (d8 ++ d2)) =
         some (0, SCRIPTDATA_DATE :: (d8 ++ d2))) := by
  refine ⟨⟨rfl, ?_⟩, ⟨rfl, rfl⟩, rfl, ?_, ?_⟩
  · intro d h
    simp [parse_scriptdata_number, SCRIPTDATA_NUMBER, h]
  · intro d h
    simp [parse_scriptdata_date, SCRIPTDATA_DATE, h]
  · intro d8 d2 h8 h2
    simp only [parse_scriptdata_date, SCRIPTDATA_DATE]
    rw [if_neg (by simp), if_neg (by simp [h8]), ← h8, List.drop_left,
      if_pos h2]

/-- Witness for the C10 theorem: short Number body, short Date body, and
a Date with a full double but a truncated offset. -/
theorem primitive_decoders_unchanged_on_short_buffer_witness :
    parse_scriptdata_number (SCRIPTDATA_NUMBER :: [1, 2, 3]) =
      some (0, SCRIPTDATA_NUMBER :: [1, 2, 3]) ∧
    parse_scriptdata_date (SCRIPTDATA_DATE :: [1, 2, 3]) =
      some (0, SCRIPTDATA_DATE :: [1, 2, 3]) ∧
    parse_scriptdata_date
        (SCRIPTDATA_DATE :: ([1, 2, 3, 4, 5, 6, 7, 8] ++ [9])) =
      some (0, SCRIPTDATA_DATE :: ([1, 2, 3, 4, 5, 6, 7, 8] ++ [9])) :=
  ⟨primitive_decoders_unchanged_on_short_buffer.1.2 [1, 2, 3] (by decide),
   primitive_decoders_unchanged_on_short_buffer.2.2.2.1 [1, 2, 3] (by decide),
   primitive_decoders_unchanged_on_short_buffer.2.2.2.2 [1, 2, 3, 4, 5, 6, 7, 8]
     [9] (by decide) (by decide)⟩

/-- C3 counterexample: a strict array declaring one item whose single
element is a Number decodes completely (declared count returned, cursor
at the end), yet the full encoding occupies 14 bytes, not the
1 + 4 + 8 * 1 = 13 bytes the claim states: each Number item carries its
own 1-byte type tag in front of the 8 payload bytes. -/
theorem strict_array_eight_per_item_cex :
    parse_scriptdata_strict_array
        [10, 0, 0, 0, 1, 0, 1, 2, 3, 4, 5, 6, 7, 8] = some (1, []) ∧
    ([10, 0, 0, 0, 1, 0, 1, 2, 3, 4, 5, 6, 7, 8] : List Nat).length = 14 ∧
    (14 : Nat) ≠ 1 + 4 + 8 * 1 := ⟨rfl, rfl, by decide⟩

/-- C3 amended: a strict array of N declared items that are all Numbers
consumes exactly 1 + 4 + 9 * N bytes (type tag, 32-bit count, and for
each item a 1-byte Number tag plus 8 double bytes), returning the
declared count with the cursor just past the items; and a strict array
whose first element byte is not the Number type tag makes the assert in
parse_scriptdata_number fire (modelled as none) instead of a silent
misparse. -/
theorem strict_array_nine_bytes_per_number :
    (∀ (c0 c1 c2 c3 : Nat) (items rest : List Nat),
        NumberItemsEnc ((c0 <<< 24) + (c1 <<< 16) + (c2 <<< 8) + c3) items →
        parse_scriptdata_strict_array
            (SCRIPTDATA_STRICT_ARRAY :: c0 :: c1 :: c2 :: c3 :: (items ++ rest)) =
          some ((c0 <<< 24) + (c1 <<< 16) + (c2 <<< 8) + c3, rest) ∧
        (SCRIPTDATA_STRICT_ARRAY :: c0 :: c1 :: c2 :: c3 :: items).length =
          1 + 4 + 9 * ((c0 <<< 24) + (c1 <<< 16) + (c2 <<< 8) + c3)) ∧
    (∀ (c0 c1 c2 c3 t : Nat) (rest : List Nat),
        1 ≤ (c0 <<< 24) + (c1 <<< 16) + (c2 <<< 8) + c3 →
        t ≠ SCRIPTDATA_NUMBER →
        parse_scriptdata_strict_array
            (SCRIPTDATA_STRICT_ARRAY :: c0 :: c1 :: c2 :: c3 :: t :: rest) =
          none) := by
  constructor
  · intro c0 c1 c2 c3 items rest h
    obtain ⟨h1, h2⟩ := strict_items_spec _ items rest h
    constructor
    · show (match parse_strict_array_items
            ((c0 <<< 24) + (c1 <<< 16) + (c2 <<< 8) + c3) (items ++ rest) with
        | none => none
        | some d3 =>
            some ((c0 <<< 24) + (c1 <<< 16) + (c2 <<< 8) + c3, d3)) =
          some ((c0 <<< 24) + (c1 <<< 16) + (c2 <<< 8) + c3, rest)
      rw [h1]
    · simp [h2]; omega
  · intro c0 c1 c2 c3 t rest hn ht
    obtain ⟨m, hm⟩ : ∃ m,
        (c0 <<< 24) + (c1 <<< 16) + (c2 <<< 8) + c3 = m + 1 :=
      ⟨(c0 <<< 24) + (c1 <<< 16) + (c2 <<< 8) + c3 - 1, by omega⟩
    show (match parse_strict_array_items
        ((c0 <<< 24) + (c1 <<< 16) + (c2 <<< 8) + c3) (t :: rest) with
      | none => none
      | some d3 =>
          some ((c0 <<< 24) + (c1 <<< 16) + (c2 <<< 8) + c3, d3)) = none
    rw [hm]
    have hnum : parse_scriptdata_number (t :: rest) = none := by
      simp only [parse_scriptdata_number]
      rw [if_pos ht]
    simp only [parse_strict_array_items, hnum]

/-- Witness for the C3 amended theorem: a one-item Number array followed
by one trailing byte, and a one-item array whose element tag is 3. -/
theorem strict_array_nine_bytes_per_number_witness :
    parse_scriptdata_strict_array
        (SCRIPTDATA_STRICT_ARRAY :: 0 :: 0 :: 0 :: 1 ::
          (([0, 9, 9, 9, 9, 9, 9, 9, 9] : List Nat) ++ [5])) =
      some ((0 <<< 24) + (0 <<< 16) + (0 <<< 8) + 1, [5]) ∧
    parse_scriptdata_strict_array
        (SCRIPTDATA_STRICT_ARRAY :: 0 :: 0 :: 0 :: 1 :: 3 :: [7]) = none := by
  refine ⟨(strict_array_nine_bytes_per_number.1 0 0 0 1
      [0, 9, 9, 9, 9, 9, 9, 9, 9] [5] ?_).1,
    strict_array_nine_bytes_per_number.2 0 0 0 1 3 [7] (by decide) (by decide)⟩
  exact NumberItemsEnc.cons [9, 9, 9, 9, 9, 9, 9, 9] rfl 0 [] NumberItemsEnc.nil

/-- C5 counterexample: a 13-byte scriptdata payload (name "A", an ECMA
array header, the terminator pair, then one stray byte) makes the value
parse consume 12 of the 13 declared bytes; the only detection the code
has is the assert value_length == 0, which aborts the process instead of
returning a PayloadSizeMismatch error value. -/
theorem payload_mismatch_assert_abort_cex :
    read_scriptdata_tag 13 [2, 0, 1, 65, 8, 0, 0, 0, 0, 0, 0, 9, 99] =
      .abortAssert := rfl

/-- C5 amended: the consumed-exactly contract exists only for scriptdata
payloads and only as an assert: a payload whose value area ends with the
terminator decodes to the done outcome exactly when no byte is left
after it and otherwise fires the assert (process abort, not an error
value); and a payload whose leading name fails to parse returns the tag
early with no consumption check at all. -/
theorem scriptdata_exact_consumption_enforced_by_assert :
    (∀ junk : List Nat,
        read_scriptdata_tag (12 + junk.length)
            ([2, 0, 1, 65, 8, 0, 0, 0, 0, 0, 0, 9] ++ junk) =
          (if junk.isEmpty then .done else .abortAssert)) ∧
    read_scriptdata_tag 1 [2] = .earlyName := by
  refine ⟨?_, rfl⟩
  intro junk
  cases junk with
  | nil => rfl
  | cons a as => rfl

/-- C2 counterexample: a read of 3 or 4 bytes from an exhausted stream
reports 0 bytes but still stores a value assembled from the zero-filled
local buffer, and flv_read_tag ignores the reported counts: a stream
that ends mid-header, right before the 3-byte stream id, parses into an
ok tag whose stream id is zero-filled instead of stopping with a
truncation error.  The stream supplies every byte up to and including
the extension byte, so no field of the result comes from uninitialised
memory; instantiating the uninitialised-extension parameter at two
different values shows the result does not depend on it. -/
theorem short_read_still_assembles_value_cex :
    fread_3 [] = (0, 0, []) ∧
    fread_4 [] = (0, 0, []) ∧
    flv_read_tag 0 [0, 0, 0, 0, 9, 0, 0, 0, 0, 0, 0, 1] =
      .ok ⟨9, 0, 0, 1, 0⟩ (.video .nil) [] ∧
    flv_read_tag 1 [0, 0, 0, 0, 9, 0, 0, 0, 0, 0, 0, 1] =
      .ok ⟨9, 0, 0, 1, 0⟩ (.video .nil) [] := ⟨rfl, rfl, rfl, rfl⟩

/-- C2 amended: fread_3 and fread_4 signal a short read only through a
0 byte count; the destination value is still assigned (assembled from
the zero-initialised buffer), and the callers never check the count, so
a stream ending mid-header yields an ok tag whose missing multi-byte
fields are zero-filled rather than a distinct truncation error.  (The
8-bit extension byte, read by fread_1, is different: on EOF it keeps the
indeterminate contents of the malloc'd struct, so the mid-header stream
here ends after that byte and the conclusion holds for every value of
the uninitialised field.) -/
theorem short_read_reports_zero_count :
    (∀ s : List Nat, s.length < 3 → (fread_3 s).1 = 0) ∧
    (∀ s : List Nat, s.length < 4 → (fread_4 s).1 = 0) ∧
    (∀ uninit_ext : Nat,
        flv_read_tag uninit_ext [0, 0, 0, 0, 8, 0, 0, 0, 0, 0, 0, 1] =
          .ok ⟨8, 0, 0, 1, 0⟩ .audioNil []) := by
  refine ⟨?_, ?_, fun uninit_ext => rfl⟩
  · intro s h
    match s, h with
    | [], _ => rfl
    | [b0], _ => rfl
    | [b0, b1], _ => rfl
    | b0 :: b1 :: b2 :: r, h => simp at h; omega
  · intro s h
    match s, h with
    | [], _ => rfl
    | [b0], _ => rfl
    | [b0, b1], _ => rfl
    | [b0, b1, b2], _ => rfl
    | b0 :: b1 :: b2 :: b3 :: r, h => simp at h; omega

/-- Witness for the C2 amended theorem: 2 remaining bytes for a 3-byte
read and 3 remaining bytes for a 4-byte read both report 0 bytes, and
the mid-header stream instantiated at extension-field contents 5. -/
theorem short_read_reports_zero_count_witness :
    (fread_3 [5, 6]).1 = 0 ∧ (fread_4 [5, 6, 7]).1 = 0 ∧
    flv_read_tag 5 [0, 0, 0, 0, 8, 0, 0, 0, 0, 0, 0, 1] =
      .ok ⟨8, 0, 0, 1, 0⟩ .audioNil [] :=
  ⟨short_read_reports_zero_count.1 [5, 6] (by decide),
   short_read_reports_zero_count.2.1 [5, 6, 7] (by decide),
   short_read_reports_zero_count.2.2 5⟩

/-- C4 counterexample: a complete tag header whose tag type byte is 7
drives flv_read_tag into the default switch branch, which calls die()
and so terminates the process with exit(-1) instead of returning an
UnknownTagType error value. -/
theorem unknown_tag_type_process_exit_cex :
    flv_read_tag 123 [0, 0, 0, 0, 7, 0, 0, 0, 0, 0, 0, 0, 0, 0, 0] =
      .processExit := rfl

/-- C4 amended: for every stream carrying a previous-tag-size field and a
full 11-byte tag header whose type byte is none of 8, 9, 18, flv_read_tag
reaches the default branch and calls die(), terminating the process; no
error value is returned to the caller. -/
theorem unknown_tag_type_calls_die (uninit_ext : Nat)
    (p0 p1 p2 p3 t d0 d1 d2 t0 t1 t2 ext s0 s1 s2 : Nat) (rest : List Nat)
    (h8 : t ≠ 8) (h9 : t ≠ 9) (h18 : t ≠ 18) :
    flv_read_tag uninit_ext (p0 :: p1 :: p2 :: p3 :: t :: d0 :: d1 :: d2 ::
        t0 :: t1 :: t2 :: ext :: s0 :: s1 :: s2 :: rest) = .processExit := by
  simp [flv_read_tag, fread_4, fread_1, fread_3, TAGTYPE_AUDIODATA,
    TAGTYPE_VIDEODATA, TAGTYPE_SCRIPTDATAOBJECT, h8, h9, h18]

/-- Witness for the C4 amended theorem at tag type 5. -/
theorem unknown_tag_type_calls_die_witness :
    flv_read_tag 123 [1, 2, 3, 4, 5, 6, 7, 8, 9, 10, 11, 12, 13, 14, 15, 16] =
      .processExit :=
  unknown_tag_type_calls_die 123 1 2 3 4 5 6 7 8 9 10 11 12 13 14 15 [16]
    (by decide) (by decide) (by decide)

/-- C6 counterexample: a tag header with timestamp bytes 0,0,2 and
extension byte 1 parses to a tag that stores timestamp 2 and extension 1
in separate fields; no component of the result equals the combined
value (1 <<< 24) bitor 2 = 16777218 that the claim says the parser
produces. -/
theorem timestamp_not_combined_cex :
    flv_read_tag 123 [0, 0, 0, 0, 8, 0, 0, 0, 0, 0, 2, 1, 0, 0, 0] =
      .ok ⟨8, 0, 2, 1, 0⟩ .audioNil [] ∧
    ((8 : Nat) ≠ (1 <<< 24) ||| 2 ∧ (0 : Nat) ≠ (1 <<< 24) ||| 2 ∧
     (2 : Nat) ≠ (1 <<< 24) ||| 2 ∧ (1 : Nat) ≠ (1 <<< 24) ||| 2) :=
  ⟨rfl, by decide⟩

/-- C6 amended: flv_read_tag stores the 24-bit timestamp and the 8-bit
extension byte it reads into two separate fields of the tag and performs
no combination of them; shown here on an arbitrary audio tag header with
declared payload size 0 so that the payload reader consumes nothing. -/
theorem tag_header_timestamp_fields_separate (uninit_ext : Nat)
    (p0 p1 p2 p3 t0 t1 t2 ext s0 s1 s2 : Nat) (rest : List Nat) :
    flv_read_tag uninit_ext (p0 :: p1 :: p2 :: p3 :: 8 :: 0 :: 0 :: 0 ::
        t0 :: t1 :: t2 :: ext :: s0 :: s1 :: s2 :: rest) =
      .ok ⟨8, 0, (t0 <<< 16) ||| (t1 <<< 8) ||| t2, ext,
            (s0 <<< 16) ||| (s1 <<< 8) ||| s2⟩ .audioNil rest := by
  simp [flv_read_tag, fread_4, fread_1, fread_3, read_audio_tag,
    TAGTYPE_AUDIODATA]

/-- C7 counterexample: an AVC NALU packet whose composition time bytes
are 255,255,255 stores composition_time 16777215, the plain unsigned
24-bit assembly; the sign extension the claim describes would store the
signed value -1 instead. -/
theorem composition_time_not_sign_extended_cex :
    read_avc_video_tag 1 8 [1, 255, 255, 255, 0, 0, 0, 0] =
      some (⟨1, 16777215, 0, []⟩, []) ∧
    sign_extend_24 16777215 = -1 ∧
    ((16777215 : Int) ≠ -1) := ⟨rfl, by decide, by decide⟩

/-- C7 amended: for packet type 1 the decoder reads a 24-bit composition
time zero-extended into an unsigned 32-bit field (no sign extension)
followed by the 32-bit first NALU length; for every other packet type
both fields are 0 and no bytes are consumed for them, the payload being
read directly after the packet type byte. -/
theorem avc_packet_field_reads (ft ds : Nat) (hft : ft ≠ 5) :
    (∀ (b0 b1 b2 n0 n1 n2 n3 : Nat) (rest : List Nat),
        read_avc_video_tag ft ds
            (1 :: b0 :: b1 :: b2 :: n0 :: n1 :: n2 :: n3 :: rest) =
          some (⟨1, (b0 <<< 16) ||| (b1 <<< 8) ||| b2,
                  (n0 <<< 24) ||| (n1 <<< 16) ||| (n2 <<< 8) ||| n3,
                  rest.take (sub_size_t ds 8)⟩,
                rest.drop (sub_size_t ds 8))) ∧
    (∀ (pt : Nat) (s : List Nat), pt ≠ 1 →
        read_avc_video_tag ft ds (pt :: s) =
          some (⟨pt, 0, 0, s.take (sub_size_t ds 1)⟩,
                s.drop (sub_size_t ds 1))) := by
  constructor
  · intro b0 b1 b2 n0 n1 n2 n3 rest
    simp [read_avc_video_tag, fread_1, fread_3, fread_4, fread_buf, hft]
  · intro pt s hpt
    simp [read_avc_video_tag, fread_1, fread_buf, hft, hpt]

/-- Witness for the C7 amended theorem: a NALU packet with composition
time 5 and first NALU length 7, and a sequence header packet. -/
theorem avc_packet_field_reads_witness :
    read_avc_video_tag 1 9 [1, 0, 0, 5, 0, 0, 0, 7, 42] =
      some (⟨1, (0 <<< 16) ||| (0 <<< 8) ||| 5,
              (0 <<< 24) ||| (0 <<< 16) ||| (0 <<< 8) ||| 7,
              [42].take (sub_size_t 9 8)⟩,
            [42].drop (sub_size_t 9 8)) ∧
    read_avc_video_tag 1 5 [0, 10, 20, 30, 40] =
      some (⟨0, 0, 0, [10, 20, 30, 40].take (sub_size_t 5 1)⟩,
            [10, 20, 30, 40].drop (sub_size_t 5 1)) :=
  ⟨(avc_packet_field_reads 1 9 (by decide)).1 0 0 5 0 0 0 7 [42],
   (avc_packet_field_reads 1 5 (by decide)).2 0 [10, 20, 30, 40] (by decide)⟩

/-- C8 counterexample: a video payload with first byte 0x52 (frame type
5, codec id 2) and declared size 3 is decoded as an ordinary raw frame
with no failure of any kind, contradicting the claim that frame type 5
must fail regardless of codec id: the assert sits only on the AVC
path. -/
theorem frame_type5_non_avc_parses_raw_cex :
    read_video_tag 3 [82, 170, 187] = .raw 5 2 [170, 187] [] := rfl

/-- C8 amended: a frame type 5 video payload aborts through the assert in
read_avc_video_tag exactly on the AVC path (codec id 7), and then only
after the packet type byte (and for NALU packets the composition time)
has already been read; with any other codec id the same frame type is
decoded as an ordinary raw frame. -/
theorem frame_type5_assert_only_on_avc_path :
    (∀ (b ds : Nat) (s : List Nat), b < 256 → b / 16 % 16 = 5 →
        b % 16 = 7 → ds ≠ 0 → read_video_tag ds (b :: s) = .abortAssert) ∧
    (∀ (b ds : Nat) (s : List Nat), b < 256 → b / 16 % 16 = 5 →
        b % 16 ≠ 7 → ds ≠ 0 →
        read_video_tag ds (b :: s) =
          .raw 5 (b % 16) (s.take (sub_size_t ds 1))
            (s.drop (sub_size_t ds 1))) := by
  constructor
  · intro b ds s hb h5 h7 hds
    obtain ⟨e1, -, -, -, e5⟩ := flv_get_bits_byte_spec b hb
    simp [read_video_tag, read_avc_video_tag, fread_1, hds, e1, e5, h5, h7,
      FLV_CODEC_ID_AVC]
  · intro b ds s hb h5 h7 hds
    obtain ⟨e1, -, -, -, e5⟩ := flv_get_bits_byte_spec b hb
    simp [read_video_tag, fread_1, fread_buf, hds, e1, e5, h5, h7,
      FLV_CODEC_ID_AVC]

/-- Witness for the C8 amended theorem: byte 0x57 (frame type 5, AVC)
aborts, byte 0x52 (frame type 5, codec 2) parses raw. -/
theorem frame_type5_assert_only_on_avc_path_witness :
    read_video_tag 2 [87, 3] = .abortAssert ∧
    read_video_tag 2 [82, 3] =
      .raw 5 2 ([3].take (sub_size_t 2 1)) ([3].drop (sub_size_t 2 1)) :=
  ⟨frame_type5_assert_only_on_avc_path.1 87 2 [3] (by decide) (by decide)
      (by decide) (by decide),
   frame_type5_assert_only_on_avc_path.2 82 2 [3] (by decide) (by decide)
      (by decide) (by decide)⟩

/-- C9: read_audio_tag extracts sound_format from bits 7:4, sound_rate
from bits 3:2, sound_size from bit 1 and sound_type from bit 0 of the
first payload byte; exactly when sound_format is 10 (AAC) one further
byte is consumed as the AAC packet subtype (otherwise the dummy 255 is
kept and the payload starts immediately after the first byte); and a
subtype of 0 with a nonempty remaining payload takes the
AudioSpecificConfig branch (configuration, Bool true) rather than the
raw-frame treatment. -/
theorem audio_bitfields_and_aac_subtype :
    (∀ (b ds : Nat) (s : List Nat), b < 256 → b / 16 % 16 ≠ 10 → ds ≠ 0 →
        read_audio_tag ds (b :: s) =
          some (⟨b / 16 % 16, b / 4 % 4, b / 2 % 2, b % 2, 255,
                  s.take (sub_size_t ds 1)⟩, false,
                s.drop (sub_size_t ds 1))) ∧
    (∀ (b a ds : Nat) (s : List Nat), b < 256 → b / 16 % 16 = 10 → ds ≠ 0 →
        read_audio_tag ds (b :: a :: s) =
          some (⟨10, b / 4 % 4, b / 2 % 2, b % 2, a,
                  s.take (sub_size_t ds 2)⟩,
                (a == 0 && !(s.take (sub_size_t ds 2)).isEmpty),
                s.drop (sub_size_t ds 2))) ∧
    (∀ (b ds : Nat) (s : List Nat), b < 256 → b / 16 % 16 = 10 →
        s.take (sub_size_t ds 2) ≠ [] → ds ≠ 0 →
        read_audio_tag ds (b :: 0 :: s) =
          some (⟨10, b / 4 % 4, b / 2 % 2, b % 2, 0,
                  s.take (sub_size_t ds 2)⟩, true,
                s.drop (sub_size_t ds 2))) := by
  have main : ∀ (b a ds : Nat) (s : List Nat), b < 256 → b / 16 % 16 = 10 →
      ds ≠ 0 →
      read_audio_tag ds (b :: a :: s) =
        some (⟨10, b / 4 % 4, b / 2 % 2, b % 2, a,
                s.take (sub_size_t ds 2)⟩,
              (a == 0 && !(s.take (sub_size_t ds 2)).isEmpty),
              s.drop (sub_size_t ds 2)) := by
    intro b a ds s hb h10 hds
    obtain ⟨e1, e2, e3, e4, -⟩ := flv_get_bits_byte_spec b hb
    simp [read_audio_tag, fread_1, fread_buf, hds, e1, e2, e3, e4, h10]
  refine ⟨?_, main, ?_⟩
  · intro b ds s hb h10 hds
    obtain ⟨e1, e2, e3, e4, -⟩ := flv_get_bits_byte_spec b hb
    simp [read_audio_tag, fread_1, fread_buf, hds, e1, e2, e3, e4, h10]
  · intro b ds s hb h10 hne hds
    have hcfg : (s.take (sub_size_t ds 2)).isEmpty = false := by
      cases hx : s.take (sub_size_t ds 2) with
      | nil => exact absurd hx hne
      | cons y ys => rfl
    rw [main b 0 ds s hb h10 hds, hcfg]
    rfl

/-- Witness for the C9 theorem: a non-AAC MP3 byte 0x2f, an AAC byte
0xaa with subtype 1, and an AAC sequence header (subtype 0) with a
nonempty configuration payload. -/
theorem audio_bitfields_and_aac_subtype_witness :
    read_audio_tag 3 [47, 7, 8] =
      some (⟨47 / 16 % 16, 47 / 4 % 4, 47 / 2 % 2, 47 % 2, 255,
              [7, 8].take (sub_size_t 3 1)⟩, false,
            [7, 8].drop (sub_size_t 3 1)) ∧
    read_audio_tag 4 [170, 1, 7, 8] =
      some (⟨10, 170 / 4 % 4, 170 / 2 % 2, 170 % 2, 1,
              [7, 8].take (sub_size_t 4 2)⟩,
            ((1 : Nat) == 0 && !([7, 8].take (sub_size_t 4 2)).isEmpty),
            [7, 8].drop (sub_size_t 4 2)) ∧
    read_audio_tag 4 [170, 0, 7, 8] =
      some (⟨10, 170 / 4 % 4, 170 / 2 % 2, 170 % 2, 0,
              [7, 8].take (sub_size_t 4 2)⟩, true,
            [7, 8].drop (sub_size_t 4 2)) :=
  ⟨audio_bitfields_and_aac_subtype.1 47 3 [7, 8] (by decide) (by decide)
      (by decide),
   audio_bitfields_and_aac_subtype.2.1 170 1 4 [7, 8] (by decide) (by decide)
      (by decide),
   audio_bitfields_and_aac_subtype.2.2 170 4 [7, 8] (by decide) (by decide)
      (by decide) (by decide)⟩
